import Mathlib

/-!
Verification of the capture-orchestration example `example/download_douyin_stream.py`.

The Python script is embedded shallowly: each session's interactions with the
outside world (the two resolution strategies, the stream-url fetch, the ffmpeg
process exit code and stderr, the timestamp) are an oracle `SessionEnv`; the
script's control flow is translated line by line into pure functions, together
with a `Trace` recording which external effects each path performs.
-/

deriving instance DecidableEq for Except

namespace StreamGet

/-- Python string slicing `s[:n]`, by code points (`str(e)[:50]`, `stderr[:200]`). -/
def pySlice (s : String) (n : Nat) : String := String.mk (s.data.take n)

/-- Modelled from the spec: the last `n` characters of `s` ("capture the last
bounded slice (e.g. 200 characters) of its diagnostic stream"). Used only to
compare the spec's wording against the code's `[:200]` slice. -/
def lastSlice (s : String) (n : Nat) : String := String.mk (s.data.drop (s.data.length - n))

/-- Python truthiness of an optional string: `None` and `""` are falsy. -/
def pyTruthyStr : Option String → Bool
  | none => false
  | some s => s != ""

/-- Python truthiness of an optional int: `None` and `0` are falsy. -/
def pyTruthyInt : Option Int → Bool
  | none => false
  | some d => d != 0

/-- Whether `pat` occurs as a substring of `s` (Python `pat in s`). -/
def strContains (s pat : String) : Bool := (s.splitOn pat).length != 1

/-- Resolver response dict: the fields the script reads via `data.get`. -/
structure RespData where
  status : Option Int
  anchor_name : Option String
  title : Option String
deriving Repr, DecidableEq

/-- Result of `fetch_stream_url`: the two candidate endpoint URLs. -/
structure StreamData where
  flv_url : Option String
  m3u8_url : Option String
deriving Repr, DecidableEq

/-- Oracle for one quality's session: what each external call would return. -/
structure SessionEnv where
  webResult : Except String RespData
  appResult : Except String RespData
  streamResult : Except String StreamData
  exitCode : Int
  stderr : String
  timestamp : String
deriving Repr, DecidableEq

/-- Lines 30-38: try `fetch_web_stream_data`; on failure try
`fetch_app_stream_data`; on double failure raise the aggregated message with
each cause truncated by `[:50]`. -/
def resolveData (env : SessionEnv) : Except String RespData :=
  match env.webResult with
  | .ok d => .ok d
  | .error e1 =>
    match env.appResult with
    | .ok d => .ok d
    | .error e2 =>
      .error ("Web和App方法都失败: Web=" ++ pySlice e1 50 ++ ", App=" ++ pySlice e2 50)

/-- Whether the fallback strategy (`fetch_app_stream_data`) is invoked at all:
only when the web strategy raised. -/
def appAttempted (env : SessionEnv) : Bool :=
  match env.webResult with
  | .ok _ => false
  | .error _ => true

/-- Line 52: `stream_url = stream_data.flv_url or stream_data.m3u8_url`. -/
def chosenUrl (sd : StreamData) : Option String :=
  if pyTruthyStr sd.flv_url then sd.flv_url else sd.m3u8_url

/-- Lines 66-69: extension chosen by the shape of the stream URL. -/
def extFor (stream_url : String) : String :=
  if stream_url.endsWith ".m3u8" || strContains stream_url "m3u8" then "mp4" else "flv"

/-- Lines 62-73: output path embeds anchor name, quality and timestamp. -/
def outputFileName (outputDir : String) (d : RespData) (quality timestamp ext : String) :
    String :=
  outputDir ++ "/" ++ (d.anchor_name.getD "unknown").replace "/" "_" ++ "_" ++ quality
    ++ "_" ++ timestamp ++ "." ++ ext

/-- Lines 101-107: the fixed head of the ffmpeg command. -/
def baseArgs (stream_url : String) : List String :=
  ["ffmpeg", "-i", stream_url, "-c", "copy", "-bsf:a", "aac_adtstoasc"]

/-- Lines 109-111: `if duration: cmd.extend(["-t", str(duration)])`. -/
def durationArgs (duration : Option Int) : List String :=
  if pyTruthyInt duration then ["-t", toString (duration.getD 0)] else []

/-- Lines 113-117: format flag from the output extension, overwrite flag, path. -/
def tailArgs (output_file : String) : List String :=
  ["-f", if output_file.endsWith ".mp4" then "mp4" else "flv", "-y", output_file]

/-- The full ffmpeg invocation built by `download_with_ffmpeg`. -/
def ffmpegCmd (stream_url output_file : String) (duration : Option Int) : List String :=
  baseArgs stream_url ++ durationArgs duration ++ tailArgs output_file

/-- What a finished capture process leaves behind: the command that ran and the
error detail recorded when the exit code is non-zero (lines 129-133). -/
structure FfmpegResult where
  cmd : List String
  errorDetail : Option String
deriving Repr, DecidableEq

/-- `download_with_ffmpeg`: build the command, run it, and on a non-zero exit
record `stderr.decode(...)[:200]` as the error message. -/
def download_with_ffmpeg (stream_url output_file : String) (duration : Option Int)
    (exitCode : Int) (stderr : String) : FfmpegResult :=
  { cmd := ffmpegCmd stream_url output_file duration,
    errorDetail := if exitCode == 0 then none else some (pySlice stderr 200) }

/-- Terminal outcome of one quality's session. -/
inductive Outcome where
  | notLive (status : Int)
  | noStreamUrl
  | captured (res : FfmpegResult)
  | errorCaught (msg : String)
deriving Repr, DecidableEq

/-- External effects performed along the session's path. -/
structure Trace where
  resolveRuns : Nat
  streamFetchRuns : Nat
  launched : Bool
  fileCreated : Bool
deriving Repr, DecidableEq

/-- Outcome together with the effects the session performed. -/
structure SessionResult where
  outcome : Outcome
  trace : Trace
deriving Repr, DecidableEq

/-- The body of the `try` block of `download_live_stream` (lines 27-83): it may
end in a raised exception (`.error`), which line 88 will catch. -/
def sessionExec (outputDir quality : String) (duration : Option Int) (env : SessionEnv) :
    Except String Outcome × Trace :=
  match resolveData env with
  | .error e => (.error e, ⟨1, 0, false, false⟩)
  | .ok d =>
    let status := d.status.getD 4
    if status ≠ 2 then
      (.ok (.notLive status), ⟨1, 0, false, false⟩)
    else
      match env.streamResult with
      | .error e => (.error e, ⟨1, 1, false, false⟩)
      | .ok sd =>
        if pyTruthyStr (chosenUrl sd) then
          let u := (chosenUrl sd).getD ""
          let out := outputFileName outputDir d quality env.timestamp (extFor u)
          (.ok (.captured (download_with_ffmpeg u out duration env.exitCode env.stderr)),
            ⟨1, 1, true, true⟩)
        else
          (.ok .noStreamUrl, ⟨1, 1, false, false⟩)

/-- `download_live_stream`: the try body wrapped by the `except Exception`
handler of line 88, which records the error and returns normally. -/
def download_live_stream (outputDir quality : String) (duration : Option Int)
    (env : SessionEnv) : SessionResult :=
  let r := sessionExec outputDir quality duration env
  ⟨match r.1 with
    | .ok o => o
    | .error e => .errorCaught e,
   r.2⟩

/-- Per-run configuration shared by every session (from `main`). -/
structure RunConfig where
  outputDir : String
  duration : Option Int
deriving Repr, DecidableEq

/-- Lines 187-195: one `download_live_stream` task per requested quality,
joined by `asyncio.gather`, whose results keep the request order. Each
quality's session consults its own oracle `envs q`. -/
def runAll (cfg : RunConfig) (qualities : List String) (envs : String → SessionEnv) :
    List (String × SessionResult) :=
  qualities.map (fun q => (q, download_live_stream cfg.outputDir q cfg.duration (envs q)))

/-- Total number of executions of the resolution procedure across a run. -/
def totalResolveRuns (cfg : RunConfig) (qualities : List String)
    (envs : String → SessionEnv) : Nat :=
  ((runAll cfg qualities envs).map (fun p => p.2.trace.resolveRuns)).sum

/-! Concrete oracles used by witnesses and counterexamples. -/

def liveData : RespData := ⟨some 2, some "anchor", some "title"⟩

def offlineData : RespData := ⟨some 4, some "anchor", some "title"⟩

def noStatusData : RespData := ⟨none, some "anchor", some "title"⟩

def envLive : SessionEnv :=
  ⟨.ok liveData, .ok liveData, .ok ⟨some "http://e.com/live.flv", none⟩, 0, "", "20260101_000000"⟩

def envOffline : SessionEnv :=
  ⟨.ok offlineData, .ok offlineData, .error "unused", 0, "", "t"⟩

def envNoStatus : SessionEnv :=
  ⟨.ok noStatusData, .ok noStatusData, .error "unused", 0, "", "t"⟩

def envBothFail : SessionEnv :=
  ⟨.error "webboom", .error "appboom", .error "unused", 0, "", "t"⟩

def envNoUrl : SessionEnv :=
  ⟨.ok liveData, .ok liveData, .ok ⟨none, none⟩, 0, "", "t"⟩

/-! Helper lemmas shared by the claim theorems below. -/

theorem pySlice_length_le (s : String) (n : Nat) : (pySlice s n).length ≤ n := by
  show (s.data.take n).length ≤ n
  simp [List.length_take]

theorem download_trace (outputDir quality : String) (duration : Option Int)
    (env : SessionEnv) :
    (download_live_stream outputDir quality duration env).trace =
      (sessionExec outputDir quality duration env).2 := rfl

theorem sessionExec_resolveRuns (outputDir quality : String) (duration : Option Int)
    (env : SessionEnv) :
    (sessionExec outputDir quality duration env).2.resolveRuns = 1 := by
  unfold sessionExec
  rcases resolveData env with e | d
  · rfl
  · simp only []
    split
    · rfl
    · rcases env.streamResult with e | sd
      · rfl
      · simp only []
        split <;> rfl

/-- C2: resolution fallback. Strategy A (web) is used first and, when it
succeeds, its data is the result and strategy B (app) is never attempted; B is
attempted exactly when A raised, and a B success is used as the result; when
both fail, a single aggregated error is raised whose message carries both
causes, each truncated by `[:50]` to at most 50 characters. -/
theorem resolution_fallback (env : SessionEnv) :
    (∀ d, env.webResult = .ok d →
      resolveData env = .ok d ∧ appAttempted env = false) ∧
    (∀ e1 d, env.webResult = .error e1 → env.appResult = .ok d →
      resolveData env = .ok d ∧ appAttempted env = true) ∧
    (∀ e1 e2, env.webResult = .error e1 → env.appResult = .error e2 →
      resolveData env =
        .error ("Web和App方法都失败: Web=" ++ pySlice e1 50 ++ ", App=" ++ pySlice e2 50) ∧
      (pySlice e1 50).length ≤ 50 ∧ (pySlice e2 50).length ≤ 50) := by
  refine ⟨?_, ?_, ?_⟩
  · intro d hw
    simp [resolveData, appAttempted, hw]
  · intro e1 d hw ha
    simp [resolveData, appAttempted, hw, ha]
  · intro e1 e2 hw ha
    simp [resolveData, hw, ha, pySlice_length_le]

/-- Witness for C2: with both strategies failing, the aggregated error is
raised with both causes embedded. -/
theorem resolution_fallback_witness :
    resolveData envBothFail = .error "Web和App方法都失败: Web=webboom, App=appboom" ∧
    (pySlice "webboom" 50).length ≤ 50 ∧ (pySlice "appboom" 50).length ≤ 50 :=
  (resolution_fallback envBothFail).2.2 "webboom" "appboom" rfl rfl

/-- C3: not-live short-circuit. When resolution succeeds with a status other
than 2, the session returns the not-live outcome without running
`fetch_stream_url`, without launching ffmpeg and without creating a file. -/
theorem not_live_short_circuit (outputDir quality : String) (duration : Option Int)
    (env : SessionEnv) (d : RespData) (hres : resolveData env = .ok d)
    (hst : d.status.getD 4 ≠ 2) :
    download_live_stream outputDir quality duration env =
      ⟨.notLive (d.status.getD 4), ⟨1, 0, false, false⟩⟩ := by
  simp [download_live_stream, sessionExec, hres, hst]

/-- Witness for C3: a room resolved with status 4 yields the not-live outcome
with no stream fetch, no launch and no file. -/
theorem not_live_short_circuit_witness :
    download_live_stream "downloads" "OD" (some 600) envOffline =
      ⟨.notLive 4, ⟨1, 0, false, false⟩⟩ :=
  not_live_short_circuit "downloads" "OD" (some 600) envOffline offlineData rfl (by decide)

/-- C10: a resolver response with no `status` key defaults to 4 via
`data.get("status", 4)` and is treated as not live: the session returns
without fetching a stream URL or launching a process. -/
theorem missing_status_defaults_offline (outputDir quality : String)
    (duration : Option Int) (env : SessionEnv) (d : RespData)
    (hres : resolveData env = .ok d) (hst : d.status = none) :
    download_live_stream outputDir quality duration env =
      ⟨.notLive 4, ⟨1, 0, false, false⟩⟩ := by
  have h4 : d.status.getD 4 = 4 := by rw [hst]; rfl
  have := not_live_short_circuit outputDir quality duration env d hres (by rw [h4]; decide)
  rwa [h4] at this

/-- Witness for C10: a response lacking the status field short-circuits as
status 4. -/
theorem missing_status_defaults_offline_witness :
    download_live_stream "downloads" "OD" none envNoStatus =
      ⟨.notLive 4, ⟨1, 0, false, false⟩⟩ :=
  missing_status_defaults_offline "downloads" "OD" none envNoStatus noStatusData rfl rfl

/-- C4 counterexample: resolution is not amortized across qualities. A run with
the two qualities OD and UHD executes the resolution procedure twice (once
inside each session), not exactly once as the claim states. -/
theorem resolve_once_cex :
    totalResolveRuns ⟨"downloads", some 600⟩ ["OD", "UHD"] (fun _ => envLive) = 2 ∧
    (2 : Nat) ≠ 1 := ⟨rfl, by decide⟩

/-- C4 amended: resolution is executed once per quality session, so a run with
N requested qualities performs exactly N resolutions (one inside each session),
each before that session's own capture; no result is shared across qualities. -/
theorem resolve_per_quality (cfg : RunConfig) (qs : List String)
    (envs : String → SessionEnv) :
    totalResolveRuns cfg qs envs = qs.length := by
  induction qs with
  | nil => rfl
  | cons q rest ih =>
    simp only [totalResolveRuns, runAll, List.map_cons, List.map_map, List.sum_cons,
      List.length_cons] at ih ⊢
    rw [download_trace, sessionExec_resolveRuns, ih]
    omega

/-- C5: run-report shape. The orchestrator produces exactly one result per
requested quality, and the result at position i belongs to the i-th requested
quality label, independent of completion order (the join keeps request order). -/
theorem runReport_shape (cfg : RunConfig) (qs : List String)
    (envs : String → SessionEnv) :
    (runAll cfg qs envs).length = qs.length ∧
    ∀ i : Nat, (runAll cfg qs envs)[i]? =
      (qs[i]?).map (fun q => (q, download_live_stream cfg.outputDir q cfg.duration (envs q))) := by
  refine ⟨by simp [runAll], fun i => ?_⟩
  simp [runAll]

/-- C6: endpoint selection. The FLV url is chosen whenever it is present (a
non-empty url, Python truthiness); the m3u8 url is chosen only when the FLV url
is absent; and when neither is present the session returns the no-stream-url
outcome without launching any capture process. -/
theorem endpoint_selection (outputDir quality : String) (duration : Option Int)
    (env : SessionEnv) (sd : StreamData) :
    (pyTruthyStr sd.flv_url = true → chosenUrl sd = sd.flv_url) ∧
    (pyTruthyStr sd.flv_url = false → chosenUrl sd = sd.m3u8_url) ∧
    (∀ d, resolveData env = .ok d → d.status.getD 4 = 2 → env.streamResult = .ok sd →
      pyTruthyStr (chosenUrl sd) = false →
      download_live_stream outputDir quality duration env =
        ⟨.noStreamUrl, ⟨1, 1, false, false⟩⟩) := by
  refine ⟨?_, ?_, ?_⟩
  · intro h; simp [chosenUrl, h]
  · intro h; simp [chosenUrl, h]
  · intro d hres hst hsd hurl
    simp [download_live_stream, sessionExec, hres, hst, hsd, hurl]

/-- Witness for C6: a live room whose stream record carries neither url makes
the session return without launching. -/
theorem endpoint_selection_witness :
    download_live_stream "downloads" "OD" none envNoUrl =
      ⟨.noStreamUrl, ⟨1, 1, false, false⟩⟩ :=
  (endpoint_selection "downloads" "OD" none envNoUrl ⟨none, none⟩).2.2 liveData rfl rfl rfl rfl

/-- C7 counterexample: the audio-bitstream-filter flag is NOT conditional. Even
for a direct FLV source saved into the native FLV container (a case in which
the claim says the flag is omitted), the built command contains it. -/
theorem bsf_flag_cex :
    "-bsf:a" ∈ ffmpegCmd "http://e.com/live.flv" "downloads/a_OD_20260101.flv" none := by
  decide

/-- C7 amended: the audio-bitstream-filter flag is included unconditionally in
every capture invocation, regardless of source shape or container format. -/
theorem bsf_flag_always (stream_url output_file : String) (duration : Option Int) :
    "-bsf:a" ∈ ffmpegCmd stream_url output_file duration := by
  unfold ffmpegCmd
  exact List.mem_append_left _ (List.mem_append_left _ (by simp [baseArgs]))

/-- A 201-character diagnostic whose first 200 characters differ from its last
200 characters. -/
def cexStderr : String := String.mk ('a' :: List.replicate 200 'b')

set_option maxRecDepth 8192 in
/-- C8 counterexample: on a non-zero exit the recorded error detail is
`stderr[:200]`, the FIRST 200 characters of the diagnostic stream, which on a
201-character stream differs from the last 200 characters the claim states. -/
theorem stderr_slice_cex :
    (download_with_ffmpeg "http://u" "out.flv" none 1 cexStderr).errorDetail =
      some (pySlice cexStderr 200) ∧
    pySlice cexStderr 200 ≠ lastSlice cexStderr 200 := by
  refine ⟨rfl, ?_⟩
  decide

/-- C8 amended: for every capture process exiting non-zero, the recorded error
detail is the first 200 characters of the diagnostic stream (and is therefore
bounded by 200 characters). -/
theorem stderr_detail_first200 (stream_url output_file : String) (duration : Option Int)
    (exitCode : Int) (stderr : String) (h : exitCode ≠ 0) :
    (download_with_ffmpeg stream_url output_file duration exitCode stderr).errorDetail =
      some (pySlice stderr 200) ∧ (pySlice stderr 200).length ≤ 200 :=
  ⟨by simp [download_with_ffmpeg, h], pySlice_length_le stderr 200⟩

/-- Witness for C8 amended: a concrete failing capture records the first-200
slice of its stderr. -/
theorem stderr_detail_first200_witness :
    (download_with_ffmpeg "http://u" "out.flv" none 1 "boom").errorDetail =
      some (pySlice "boom" 200) ∧ (pySlice "boom" 200).length ≤ 200 :=
  stderr_detail_first200 "http://u" "out.flv" none 1 "boom" (by decide)

/-- C9 counterexample: the duration flag is driven by Python truthiness, not
positivity: a negative duration (-1), which is not positive, still puts the
"-t" flag into the command. -/
theorem duration_flag_cex :
    "-t" ∈ ffmpegCmd "http://u" "out.flv" (some (-1)) ∧ ¬(0 < (-1 : Int)) := by
  refine ⟨?_, by decide⟩
  decide

/-- C9 amended: the duration flag is passed if and only if a duration is
supplied and non-zero (so a negative duration also passes the flag); an
omitted or zero duration yields no flag, and every case still produces a
well-formed command. -/
theorem duration_flag_iff (stream_url output_file : String) (duration : Option Int)
    (h1 : stream_url ≠ "-t") (h2 : output_file ≠ "-t") :
    ("-t" ∈ ffmpegCmd stream_url output_file duration ↔
      ∃ d, duration = some d ∧ d ≠ 0) := by
  have hbase : "-t" ∉ baseArgs stream_url := by
    simp [baseArgs]
    exact fun hh => h1 hh.symm
  have htail : "-t" ∉ tailArgs output_file := by
    simp [tailArgs]
    refine ⟨?_, fun hh => h2 hh.symm⟩
    split <;> decide
  constructor
  · intro hm
    rcases List.mem_append.mp hm with hm | hm
    · rcases List.mem_append.mp hm with hm | hm
      · exact absurd hm hbase
      · rcases duration with _ | d
        · simp [durationArgs, pyTruthyInt] at hm
        · by_cases hd : d = 0
          · simp [durationArgs, pyTruthyInt, hd] at hm
          · exact ⟨d, rfl, hd⟩
    · exact absurd hm htail
  · rintro ⟨d, rfl, hd⟩
    refine List.mem_append_left _ (List.mem_append_right _ ?_)
    simp [durationArgs, pyTruthyInt, hd]

/-- Witness for C9 amended: a supplied non-zero duration puts the flag into
the command. -/
theorem duration_flag_iff_witness :
    "-t" ∈ ffmpegCmd "http://u" "out.flv" (some 600) :=
  (duration_flag_iff "http://u" "out.flv" (some 600) (by decide) (by decide)).mpr
    ⟨600, rfl, by decide⟩

/-- C1: cross-session isolation. Every failure inside one quality's session is
caught and recorded in that session's own result — an aggregated resolution
error and a stream-url fetch error end as the caught-error outcome, a missing
stream url ends as the no-stream-url outcome without a launch, and a non-zero
capture exit ends as a captured outcome carrying the truncated stderr — so the
session function always returns normally to the orchestrator; and the result
the orchestrator collects at position i depends only on the oracle of the i-th
requested quality, so one session's outcome never cancels, blocks or alters a
sibling session. -/
theorem cross_session_isolation (outputDir quality : String) (duration : Option Int)
    (env : SessionEnv) (cfg : RunConfig) (qs : List String)
    (envs envs' : String → SessionEnv) (i : Nat) :
    (∀ e, resolveData env = .error e →
      download_live_stream outputDir quality duration env =
        ⟨.errorCaught e, ⟨1, 0, false, false⟩⟩) ∧
    (∀ d e, resolveData env = .ok d → d.status.getD 4 = 2 →
      env.streamResult = .error e →
      download_live_stream outputDir quality duration env =
        ⟨.errorCaught e, ⟨1, 1, false, false⟩⟩) ∧
    (∀ d sd, resolveData env = .ok d → d.status.getD 4 = 2 →
      env.streamResult = .ok sd → pyTruthyStr (chosenUrl sd) = false →
      download_live_stream outputDir quality duration env =
        ⟨.noStreamUrl, ⟨1, 1, false, false⟩⟩) ∧
    (∀ d sd, resolveData env = .ok d → d.status.getD 4 = 2 →
      env.streamResult = .ok sd → pyTruthyStr (chosenUrl sd) = true →
      env.exitCode ≠ 0 →
      download_live_stream outputDir quality duration env =
        ⟨.captured ⟨ffmpegCmd ((chosenUrl sd).getD "")
            (outputFileName outputDir d quality env.timestamp
              (extFor ((chosenUrl sd).getD ""))) duration,
          some (pySlice env.stderr 200)⟩, ⟨1, 1, true, true⟩⟩) ∧
    ((∀ q, qs[i]? = some q → envs q = envs' q) →
      (runAll cfg qs envs)[i]? = (runAll cfg qs envs')[i]?) := by
  refine ⟨?_, ?_, ?_, ?_, ?_⟩
  · intro e hres
    simp [download_live_stream, sessionExec, hres]
  · intro d e hres hst hsd
    simp [download_live_stream, sessionExec, hres, hst, hsd]
  · intro d sd hres hst hsd hurl
    simp [download_live_stream, sessionExec, hres, hst, hsd, hurl]
  · intro d sd hres hst hsd hurl hexit
    simp [download_live_stream, sessionExec, hres, hst, hsd, hurl,
      download_with_ffmpeg, hexit]
  · intro hagree
    rcases hq : qs[i]? with _ | q
    · simp [runAll, hq]
    · simp [runAll, hq, hagree q hq]

/-- Witness for C1: a session whose two resolution strategies both fail returns
normally with the aggregated error recorded as its own outcome. -/
theorem cross_session_isolation_witness :
    download_live_stream "downloads" "OD" (some 600) envBothFail =
      ⟨.errorCaught "Web和App方法都失败: Web=webboom, App=appboom", ⟨1, 0, false, false⟩⟩ :=
  (cross_session_isolation "downloads" "OD" (some 600) envBothFail
    ⟨"downloads", some 600⟩ ["OD"] (fun _ => envBothFail) (fun _ => envBothFail) 0).1
    "Web和App方法都失败: Web=webboom, App=appboom" rfl

end StreamGet
